import Mathlib

/-!
# QuickSell admin backend — shallow embedding

A shallow embedding of the QuickSell admin API handlers
(`src/backend/src/controllers/adminController.ts` and the admin router file)
over an explicit relational store, together with theorems settling the
specification claims about them.

Modelling conventions:
* SQL rows are Lean structures; nullable columns are `Option`-typed.
* Timestamps are `Nat` seconds; `NOW()` is the store's `now` field.
* Handlers are pure functions from the store (plus request data) to a
  response envelope, the successor store, and the ordered trace of the
  queries they issued.
* JavaScript `parseInt` is modelled by `jsParseInt` (`none` = `NaN`).
* Monetary values are exact fixed-point cents (the source computes the same
  two-digit rendering via doubles and `toFixed(2)`).
-/

set_option autoImplicit false

namespace QuickSell

/-- A row of the `users` table.  Mutable profile columns are nullable,
as in the SQL schema; `id` and timestamps are always present. -/
structure UserRow where
  id : Nat
  username : Option String
  email : Option String
  subscription_tier : Option String
  points : Option Int
  current_level : Int
  is_admin : Option Bool
  created_at : Nat
  updated_at : Nat
  deriving Repr, DecidableEq

/-- A row of the `listings` table; `deleted_at` is the soft-delete marker. -/
structure ListingRow where
  id : Nat
  user_id : Nat
  title : String
  description : String
  status : String
  price : Int
  category : String
  marketplace_listings : String
  deleted_at : Option Nat
  created_at : Nat
  deriving Repr, DecidableEq

/-- A row of the `marketplace_accounts` table. -/
structure MarketplaceAccountRow where
  id : Nat
  user_id : Nat
  is_active : Bool
  deriving Repr, DecidableEq

/-- A row of the append-only `admin_activity_log` table; `created_at` is
filled by the column default at insert time. -/
structure AuditRow where
  admin_id : Nat
  action : String
  details : String
  ip_address : String
  created_at : Nat
  deriving Repr, DecidableEq

/-- The relational store visible to the admin handlers.  `ebay_listings`
rows only ever get counted, so they are carried as bare ids. -/
structure DB where
  users : List UserRow
  listings : List ListingRow
  marketplace_accounts : List MarketplaceAccountRow
  ebay_listings : List Nat
  admin_activity_log : List AuditRow
  now : Nat
  deriving Repr, DecidableEq

/-- Tags for the queries a handler issues, in order. -/
inductive QueryTag where
  | adminCheck
  | aggregateRead
  | select
  | auditInsert
  | updateWrite
  | deleteWrite
  deriving Repr, DecidableEq

/-- A handler outcome: HTTP status, the envelope's `success` flag, the
payload when there is one, the store afterwards, and the query trace. -/
structure HandlerOut (α : Type) where
  status : Nat
  success : Bool
  data : Option α
  db : DB
  queries : List QueryTag
  deriving Repr

/-- Forget the payload (used when dispatching heterogeneous endpoints). -/
def HandlerOut.erase {α : Type} (o : HandlerOut α) : HandlerOut Unit :=
  { status := o.status, success := o.success, data := o.data.map fun _ => ()
    db := o.db, queries := o.queries }

/-- `SELECT is_admin FROM users WHERE id = $1` followed by the truthiness
test `adminCheck.rows[0]?.is_admin`: the caller passes iff their row exists
and carries `is_admin = true` (a missing row, SQL `NULL`, and `false` are
all falsy). -/
def isAdminCaller (db : DB) (callerId : Nat) : Bool :=
  match db.users.find? (fun u => u.id == callerId) with
  | some u => u.is_admin == some true
  | none => false

/-- Digits of a decimal numeral, most significant first, to a `Nat`. -/
def digitsToNat (ds : List Char) : Nat :=
  ds.foldl (fun acc c => acc * 10 + (c.toNat - Char.toNat (Char.ofNat 48))) 0

/-- ASCII whitespace, as skipped by `parseInt`. -/
def isWhite (c : Char) : Bool :=
  c == ' ' || c == Char.ofNat 9 || c == Char.ofNat 10 || c == Char.ofNat 13

/-- JavaScript `parseInt(s)` (radix 10): skip leading whitespace, accept an
optional sign, then the longest digit run; `none` models `NaN`. -/
def jsParseInt (s : String) : Option Int :=
  let cs := s.toList.dropWhile isWhite
  match cs with
  | c :: rest =>
    if c == Char.ofNat 45 then
      let ds := rest.takeWhile Char.isDigit
      if ds.isEmpty then none else some (-(digitsToNat ds : Int))
    else if c == Char.ofNat 43 then
      let ds := rest.takeWhile Char.isDigit
      if ds.isEmpty then none else some (digitsToNat ds : Int)
    else
      let ds := cs.takeWhile Char.isDigit
      if ds.isEmpty then none else some (digitsToNat ds : Int)
  | [] => none

/-- Render a cents amount the way `Number.prototype.toFixed(2)` renders the
corresponding decimal: integer part, a dot, two fraction digits. -/
def centsToFixed2 (c : Nat) : String :=
  toString (c / 100) ++ "." ++ (if c % 100 < 10 then "0" else "") ++ toString (c % 100)

/-- SQL `LIKE`/`ILIKE` pattern matching over character lists: `%` matches
any run (tried as every suffix of the subject), `_` any single character,
and ordinary characters match up to ASCII case folding (the `ILIKE` of the
source).  Recursion is structural on the pattern. -/
def likeMatch : List Char → List Char → Bool
  | [], s => s.isEmpty
  | '%' :: ps, s => s.tails.any (fun t => likeMatch ps t)
  | '_' :: ps, s =>
    (match s with
     | [] => false
     | _ :: tl => likeMatch ps tl)
  | c :: ps, s =>
    (match s with
     | [] => false
     | d :: tl => (c.toLower == d.toLower) && likeMatch ps tl)

/-- `x ILIKE pattern` on strings. -/
def ilike (pattern s : String) : Bool :=
  likeMatch pattern.toList s.toList

/-- Distinct values of a list, first occurrence order: the row set of a
`GROUP BY`/`COUNT(DISTINCT …)` key. -/
def dedup {α : Type} [BEq α] : List α → List α
  | [] => []
  | a :: tl => a :: (dedup tl).filter (fun b => !(b == a))

/-- `ILIKE` applied to a nullable column: `NULL ILIKE p` is SQL `NULL`,
which the surrounding `WHERE`/`OR` treats as not-true. -/
def ilikeOpt (pattern : String) : Option String → Bool
  | some s => ilike pattern s
  | none => false

/-! ## Metrics aggregator (`getDashboardMetrics`, `GET /api/v1/admin/metrics`) -/

/-- `COUNT(*) FILTER (WHERE subscription_tier = 'premium') FROM users`. -/
def premiumCount (db : DB) : Nat :=
  db.users.countP (fun u => u.subscription_tier == some "premium")

/-- `COUNT(*) FILTER (WHERE subscription_tier = 'premium_plus') FROM users`. -/
def premiumPlusCount (db : DB) : Nat :=
  db.users.countP (fun u => u.subscription_tier == some "premium_plus")

/-- `monthlyRevenue = premiumCount * 4.99 + premiumPlusCount * 9.99`,
carried in exact cents. -/
def monthlyRevenueCents (db : DB) : Nat :=
  premiumCount db * 499 + premiumPlusCount db * 999

/-- `annualRevenue = monthlyRevenue * 12`, in cents. -/
def annualRevenueCents (db : DB) : Nat :=
  monthlyRevenueCents db * 12

/-- The `overview` section of the metrics report. -/
structure Overview where
  totalUsers : Nat
  totalListings : Nat
  connectedAccounts : Nat
  ebayListings : Nat
  recentUsers : Nat
  activeUsers : Nat
  deriving Repr, DecidableEq

/-- The `listings` section of the metrics report: one bucket per status in
the fixed enumeration draft/active/sold/archived. -/
structure ListingsByStatus where
  drafts : Nat
  active : Nat
  sold : Nat
  archived : Nat
  deriving Repr, DecidableEq

/-- The `revenue` section of the metrics report. -/
structure Revenue where
  monthlyRevenue : String
  annualRevenue : String
  premiumUsers : Nat
  premiumPlusUsers : Nat
  deriving Repr, DecidableEq

/-- One entry of the `topUsers` list. -/
structure TopUser where
  id : Nat
  username : Option String
  email : Option String
  subscription_tier : Option String
  listing_count : Nat
  deriving Repr, DecidableEq

/-- The full metrics report assembled by `getDashboardMetrics`. -/
structure MetricsReport where
  overview : Overview
  subscriptions : List (Option String × Nat)
  listings : ListingsByStatus
  revenue : Revenue
  topUsers : List TopUser
  deriving Repr, DecidableEq

/-- The six `overview` aggregate reads.  `created_at > NOW() - INTERVAL`
is stated additively to avoid truncated `Nat` subtraction. -/
def overviewCounts (db : DB) : Overview :=
  { totalUsers := db.users.length
    totalListings := db.listings.length
    connectedAccounts := db.marketplace_accounts.countP (fun a => a.is_active)
    ebayListings := db.ebay_listings.length
    recentUsers := db.users.countP (fun u => db.now < u.created_at + 7 * 86400)
    activeUsers :=
      (dedup ((db.listings.filter (fun l => db.now < l.created_at + 30 * 86400)).map
        (fun l => l.user_id))).length }

/-- `SELECT subscription_tier, COUNT(*) FROM users GROUP BY subscription_tier`,
folded into a tier → count mapping exactly as the handler's `reduce` does. -/
def tierGroups (db : DB) : List (Option String × Nat) :=
  (dedup (db.users.map (fun u => u.subscription_tier))).map
    (fun t => (t, db.users.countP (fun u => u.subscription_tier == t)))

/-- The listings-by-status query of the metrics handler: four
`COUNT(*) FILTER (WHERE status = …)` aggregates over **all** of `listings`
(this query has no `deleted_at` condition). -/
def listingsByStatusAll (db : DB) : ListingsByStatus :=
  { drafts := db.listings.countP (fun l => l.status == "draft")
    active := db.listings.countP (fun l => l.status == "active")
    sold := db.listings.countP (fun l => l.status == "sold")
    archived := db.listings.countP (fun l => l.status == "archived") }

/-- Top-10 users by `COUNT(l.id)` over `users LEFT JOIN listings`,
descending; SQL leaves tie order unspecified, modelled by the sort's
placement of equal keys. -/
def topUsersByListings (db : DB) : List TopUser :=
  ((db.users.map (fun u =>
      TopUser.mk u.id u.username u.email u.subscription_tier
        (db.listings.countP (fun l => l.user_id == u.id)))).insertionSort
    (fun a b => b.listing_count ≤ a.listing_count)).take 10

/-- The metrics report, assembled from the aggregate reads above. -/
def computeMetrics (db : DB) : MetricsReport :=
  { overview := overviewCounts db
    subscriptions := tierGroups db
    listings := listingsByStatusAll db
    revenue :=
      { monthlyRevenue := centsToFixed2 (monthlyRevenueCents db)
        annualRevenue := centsToFixed2 (annualRevenueCents db)
        premiumUsers := premiumCount db
        premiumPlusUsers := premiumPlusCount db }
    topUsers := topUsersByListings db }

/-- The audit row the metrics handler appends
(`INSERT INTO admin_activity_log … 'view_dashboard' …`). -/
def viewDashboardAudit (callerId : Nat) (ip : String) (now : Nat) : AuditRow :=
  { admin_id := callerId, action := "view_dashboard"
    details := "timestamp", ip_address := ip, created_at := now }

/-- `getDashboardMetrics`: inline admin check, ten aggregate reads, then the
awaited audit insert, all inside one `try`.  `auditFails` says whether that
insert throws; when it does, control reaches the `catch`, which answers 500
(the failed insert leaves the store unchanged). -/
def getDashboardMetrics (db : DB) (callerId : Nat) (ip : String)
    (auditFails : Bool) : HandlerOut MetricsReport :=
  if !(isAdminCaller db callerId) then
    { status := 403, success := false, data := none, db := db
      queries := [.adminCheck] }
  else
    let trace := QueryTag.adminCheck :: List.replicate 10 QueryTag.aggregateRead
      ++ [QueryTag.auditInsert]
    if auditFails then
      { status := 500, success := false, data := none, db := db, queries := trace }
    else
      { status := 200, success := true, data := some (computeMetrics db)
        db := { db with admin_activity_log :=
                  db.admin_activity_log ++ [viewDashboardAudit callerId ip db.now] }
        queries := trace }

/-! ## Router handlers (`GET /dashboard`, user/listing CRUD) -/

/-- `WHERE deleted_at IS NULL` over `listings`. -/
def nonDeletedListings (db : DB) : List ListingRow :=
  db.listings.filter (fun l => l.deleted_at == none)

/-- `SELECT status, COUNT(*) … GROUP BY status`: one `(status, count)` row
per distinct status value. -/
def statusGroups (rows : List ListingRow) : List (String × Nat) :=
  (dedup (rows.map (fun l => l.status))).map
    (fun s => (s, rows.countP (fun l => l.status == s)))

/-- The dashboard handler's fold over the `GROUP BY` rows: each bucket local
starts at 0 and is overwritten by the row whose status matches exactly. -/
def groupCount (groups : List (String × Nat)) (s : String) : Nat :=
  match groups.find? (fun g => g.1 == s) with
  | some g => g.2
  | none => 0

/-- The `GET /dashboard` payload.  (`avgListingsPerUser` is a JavaScript
floating-point division and is left outside the model.) -/
structure DashboardStats where
  totalUsers : Nat
  totalListings : Nat
  activeListings : Nat
  draftListings : Nat
  publishedListings : Nat
  totalPoints : Int
  deriving Repr, DecidableEq

/-- The `GET /dashboard` aggregation: totals over non-deleted listings and
the active/draft/published buckets read off the status groups.
`SUM(points)` skips SQL `NULL`s; `parseInt(…) || 0` maps a null sum to 0. -/
def dashboardStats (db : DB) : DashboardStats :=
  let nd := nonDeletedListings db
  let groups := statusGroups nd
  { totalUsers := db.users.length
    totalListings := nd.length
    activeListings := groupCount groups "active"
    draftListings := groupCount groups "draft"
    publishedListings := groupCount groups "published"
    totalPoints := (db.users.map (fun u => u.points.getD 0)).sum }

/-- `GET /listings`: non-deleted listings, newest first. -/
def getListingsRows (db : DB) : List ListingRow :=
  (nonDeletedListings db).insertionSort (fun a b => b.created_at ≤ a.created_at)

/-- `DELETE /listings/:id`: `UPDATE listings SET deleted_at = NOW() WHERE
id = $1 RETURNING id` — note the `WHERE` clause matches on `id` alone, with
no `deleted_at` condition — then 404 exactly when no row came back. -/
def deleteListing (db : DB) (id : Nat) : HandlerOut Unit :=
  let updated := db.listings.filter (fun l => l.id == id)
  let listings2 := db.listings.map (fun l =>
    if l.id == id then { l with deleted_at := some db.now } else l)
  if updated.isEmpty then
    { status := 404, success := false, data := none, db := db
      queries := [.updateWrite] }
  else
    { status := 200, success := true, data := some ()
      db := { db with listings := listings2 }, queries := [.updateWrite] }

/-- The request body of `PUT /users/:id` after destructuring: a field the
client omitted is `undefined`, which the driver binds as SQL `NULL`. -/
structure UserUpdateBody where
  username : Option String
  email : Option String
  subscription_tier : Option String
  points : Option Int
  is_admin : Option Bool
  deriving Repr, DecidableEq

/-- The `RETURNING id, username, email, subscription_tier, points, is_admin`
projection. -/
structure UserProjection where
  id : Nat
  username : Option String
  email : Option String
  subscription_tier : Option String
  points : Option Int
  is_admin : Option Bool
  deriving Repr, DecidableEq

/-- The `SET` list of the update: every one of the five columns is written
with its bound parameter (`NULL` for omitted fields), `updated_at = NOW()`. -/
def applyUserUpdate (now : Nat) (body : UserUpdateBody) (u : UserRow) : UserRow :=
  { u with username := body.username, email := body.email
           subscription_tier := body.subscription_tier, points := body.points
           is_admin := body.is_admin, updated_at := now }

/-- `PUT /users/:id`: one `UPDATE … WHERE id = $6 RETURNING …`; 404 when no
row matched (in which case the update wrote nothing). -/
def updateUser (db : DB) (id : Nat) (body : UserUpdateBody) :
    HandlerOut UserProjection :=
  let matched := db.users.filter (fun u => u.id == id)
  let users2 := db.users.map (fun u =>
    if u.id == id then applyUserUpdate db.now body u else u)
  match matched with
  | [] =>
    { status := 404, success := false, data := none, db := db
      queries := [.updateWrite] }
  | u :: _ =>
    let u2 := applyUserUpdate db.now body u
    { status := 200, success := true
      data := some ⟨u2.id, u2.username, u2.email, u2.subscription_tier,
                    u2.points, u2.is_admin⟩
      db := { db with users := users2 }, queries := [.updateWrite] }

/-! ## Paginated users listing (`getUsers`, `GET /api/v1/admin/users`) -/

/-- Null padding of a left join: an empty right-hand side contributes one
all-`NULL` row, otherwise each matching row appears. -/
def leftJoinPad {β : Type} (xs : List β) : List (Option β) :=
  if xs.isEmpty then [none] else xs.map some

/-- Rows of `listings` matching `ON u.id = l.user_id`. -/
def listingsOf (db : DB) (uid : Nat) : List ListingRow :=
  db.listings.filter (fun l => l.user_id == uid)

/-- Rows of `marketplace_accounts` matching
`ON u.id = ma.user_id AND ma.is_active = true`. -/
def activeAccountsOf (db : DB) (uid : Nat) : List MarketplaceAccountRow :=
  db.marketplace_accounts.filter (fun a => a.user_id == uid && a.is_active)

/-- The group of joined rows for one user under
`users u LEFT JOIN listings l ON … LEFT JOIN marketplace_accounts ma ON …
GROUP BY u.id`: every listing match is paired with every account match,
with `NULL` padding on either empty side. -/
def userJoinRows (db : DB) (u : UserRow) :
    List (Option ListingRow × Option MarketplaceAccountRow) :=
  (leftJoinPad (listingsOf db u.id)).flatMap (fun ol =>
    (leftJoinPad (activeAccountsOf db u.id)).map (fun oa => (ol, oa)))

/-- `COUNT(l.id)` over the user's group: joined rows with a non-`NULL`
listing side. -/
def sqlListingCount (db : DB) (u : UserRow) : Nat :=
  (userJoinRows db u).countP (fun r => r.1.isSome)

/-- `COUNT(ma.id)` over the user's group: joined rows with a non-`NULL`
account side. -/
def sqlConnectedAccounts (db : DB) (u : UserRow) : Nat :=
  (userJoinRows db u).countP (fun r => r.2.isSome)

/-- The search clause
`(u.username ILIKE '%'||search||'%' OR u.email ILIKE …)`; the pattern is
built by raw interpolation of the search value between two `%`. -/
def userMatchesSearch (search : String) (u : UserRow) : Bool :=
  ilikeOpt ("%" ++ search ++ "%") u.username ||
    ilikeOpt ("%" ++ search ++ "%") u.email

/-- The composed `WHERE` of the users query: each clause is appended only
when its filter value is truthy (non-empty). -/
def userMatchesFilters (search tier : String) (u : UserRow) : Bool :=
  (search == "" || userMatchesSearch search u) &&
    (tier == "" || u.subscription_tier == some tier)

/-- One output row of the users listing. -/
structure AdminUserRow where
  id : Nat
  username : Option String
  email : Option String
  subscription_tier : Option String
  points : Option Int
  current_level : Int
  is_admin : Option Bool
  created_at : Nat
  updated_at : Nat
  listing_count : Nat
  connected_accounts : Nat
  deriving Repr, DecidableEq

/-- Pagination metadata of the users listing. -/
structure Pagination where
  page : Int
  limit : Int
  total : Nat
  totalPages : Int
  deriving Repr, DecidableEq

/-- Payload of `GET /api/v1/admin/users`. -/
structure UsersPage where
  users : List AdminUserRow
  pagination : Pagination
  deriving Repr, DecidableEq

/-- Shape one grouped row of the users query. -/
def mkAdminUserRow (db : DB) (u : UserRow) : AdminUserRow :=
  ⟨u.id, u.username, u.email, u.subscription_tier, u.points, u.current_level,
   u.is_admin, u.created_at, u.updated_at,
   sqlListingCount db u, sqlConnectedAccounts db u⟩

/-- `getUsers`: inline admin check; `page`/`limit` default to 1/50 then go
through `parseInt`; `offset = (page-1)*limit`; filtered users are grouped,
ordered newest first, then `LIMIT`/`OFFSET` applied; a second count query
mirrors the filters.  A `NaN` or negative `LIMIT`/`OFFSET` makes the store
reject the query, surfaced as 500 by the handler's `catch`.
(`totalPages = Math.ceil(total/limit)`; the model's integer form agrees for
every positive limit, and the zero-limit `Infinity` is outside the model.) -/
def getUsers (db : DB) (callerId : Nat) (page limit : Option String)
    (search tier : String) : HandlerOut UsersPage :=
  if !(isAdminCaller db callerId) then
    { status := 403, success := false, data := none, db := db
      queries := [.adminCheck] }
  else
    let pageN := match page with | none => some (1 : Int) | some s => jsParseInt s
    let limitN := match limit with | none => some (50 : Int) | some s => jsParseInt s
    match pageN, limitN with
    | some p, some lim =>
      let offset := (p - 1) * lim
      if lim < 0 || offset < 0 then
        { status := 500, success := false, data := none, db := db
          queries := [.adminCheck, .select] }
      else
        let filtered := db.users.filter (userMatchesFilters search tier)
        let sorted := filtered.insertionSort (fun a b => b.created_at ≤ a.created_at)
        let rows := ((sorted.drop offset.toNat).take lim.toNat).map (mkAdminUserRow db)
        let total := filtered.length
        { status := 200, success := true
          data := some ⟨rows, ⟨p, lim, total, ((total : Int) + lim - 1) / lim⟩⟩
          db := db, queries := [.adminCheck, .select, .select] }
    | _, _ =>
      { status := 500, success := false, data := none, db := db
        queries := [.adminCheck, .select] }

/-! ## SQL text construction (`getUsers` filters, `getSystemStats` window) -/

/-- A bound SQL parameter value. -/
inductive SqlValue where
  | s (v : String)
  | i (v : Int)
  deriving Repr, DecidableEq

/-- The fixed head of the users query text. -/
def usersSelectBase : String :=
  "SELECT u.id, u.username, u.email, u.subscription_tier, u.points, u.current_level, u.is_admin, u.created_at, u.updated_at, COUNT(l.id) as listing_count, COUNT(ma.id) as connected_accounts FROM users u LEFT JOIN listings l ON u.id = l.user_id LEFT JOIN marketplace_accounts ma ON u.id = ma.user_id AND ma.is_active = true WHERE 1=1"

/-- The users query as the handler assembles it (whitespace normalized):
filter clauses are appended per truthy value, values pushed onto the
parameter vector, `$n` placeholders numbered by a running index. -/
def buildUsersQuery (search tier : String) (limitV offsetV : Int) :
    String × List SqlValue :=
  let q := usersSelectBase
  let ps : List SqlValue := []
  let idx : Nat := 1
  let (q, ps, idx) :=
    if search != "" then
      (q ++ " AND (u.username ILIKE $" ++ toString idx ++ " OR u.email ILIKE $"
         ++ toString (idx + 1) ++ ")",
       ps ++ [SqlValue.s ("%" ++ search ++ "%"), SqlValue.s ("%" ++ search ++ "%")],
       idx + 2)
    else (q, ps, idx)
  let (q, ps, idx) :=
    if tier != "" then
      (q ++ " AND u.subscription_tier = $" ++ toString idx,
       ps ++ [SqlValue.s tier], idx + 1)
    else (q, ps, idx)
  (q ++ " GROUP BY u.id ORDER BY u.created_at DESC LIMIT $" ++ toString idx
     ++ " OFFSET $" ++ toString (idx + 1),
   ps ++ [SqlValue.i limitV, SqlValue.i offsetV])

/-- The mirrored count query of `getUsers`. -/
def buildUsersCountQuery (search tier : String) : String × List SqlValue :=
  let q := "SELECT COUNT(*) FROM users WHERE 1=1"
  let ps : List SqlValue := []
  let idx : Nat := 1
  let (q, ps, idx) :=
    if search != "" then
      (q ++ " AND (username ILIKE $" ++ toString idx ++ " OR email ILIKE $"
         ++ toString (idx + 1) ++ ")",
       ps ++ [SqlValue.s ("%" ++ search ++ "%"), SqlValue.s ("%" ++ search ++ "%")],
       idx + 2)
    else (q, ps, idx)
  let (q, ps) :=
    if tier != "" then
      (q ++ " AND subscription_tier = $" ++ toString idx, ps ++ [SqlValue.s tier])
    else (q, ps)
  (q, ps)

/-- How the interpolation `INTERVAL '${parseInt(days)} days'` renders the
coerced value inside the query text (`NaN` for a non-numeric string). -/
def jsParseIntRender (s : String) : String :=
  match jsParseInt s with
  | some n => toString n
  | none => "NaN"

/-- The signups query of `getSystemStats` (whitespace normalized): the
`days` value is spliced into the SQL text itself; the parameter vector is
empty. -/
def buildSignupsQuery (days : String) : String × List SqlValue :=
  ("SELECT DATE(created_at) as date, COUNT(*) as count FROM users WHERE created_at > NOW() - INTERVAL \x27"
     ++ jsParseIntRender days ++ " days\x27 GROUP BY DATE(created_at) ORDER BY date DESC",
   [])

/-- The listings-over-time query of `getSystemStats`, same splicing. -/
def buildListingsStatsQuery (days : String) : String × List SqlValue :=
  ("SELECT DATE(created_at) as date, COUNT(*) as count FROM listings WHERE created_at > NOW() - INTERVAL \x27"
     ++ jsParseIntRender days ++ " days\x27 GROUP BY DATE(created_at) ORDER BY date DESC",
   [])

/-! ## Remaining read endpoints -/

/-- `DATE(created_at)` as a day index. -/
def dayOf (ts : Nat) : Nat := ts / 86400

/-- One `(date, count)` row of a per-day aggregation. -/
structure DateCount where
  date : Nat
  count : Nat
  deriving Repr, DecidableEq

/-- `GROUP BY DATE(created_at) ORDER BY date DESC` over timestamps. -/
def dateCountsDesc (ts : List Nat) : List DateCount :=
  ((dedup (ts.map dayOf)).insertionSort (fun a b => b ≤ a)).map
    (fun d => ⟨d, ts.countP (fun t => dayOf t == d)⟩)

/-- `GROUP BY DATE(created_at) ORDER BY date` (ascending) over timestamps. -/
def dateCountsAsc (ts : List Nat) : List DateCount :=
  ((dedup (ts.map dayOf)).insertionSort (fun a b => a ≤ b)).map
    (fun d => ⟨d, ts.countP (fun t => dayOf t == d)⟩)

/-- `created_at > NOW() - INTERVAL 'd days'` with a possibly negative `d`. -/
def withinDays (now : Nat) (d : Int) (ts : Nat) : Bool :=
  (now : Int) - d * 86400 < (ts : Int)

/-- Payload of `GET /api/v1/admin/stats`. -/
structure SystemStatsData where
  signups : List DateCount
  listings : List DateCount
  deriving Repr, DecidableEq

/-- `getSystemStats`: inline admin check, then the two per-day aggregates
over a `days`-long window (`days` defaults to 30).  A `NaN` splice makes
the store reject the query text, surfaced as 500. -/
def getSystemStats (db : DB) (callerId : Nat) (days : Option String) :
    HandlerOut SystemStatsData :=
  if !(isAdminCaller db callerId) then
    { status := 403, success := false, data := none, db := db
      queries := [.adminCheck] }
  else
    match (match days with | none => some (30 : Int) | some s => jsParseInt s) with
    | none =>
      { status := 500, success := false, data := none, db := db
        queries := [.adminCheck, .select] }
    | some d =>
      { status := 200, success := true
        data := some
          ⟨dateCountsDesc ((db.users.filter (fun u => withinDays db.now d u.created_at)).map
              (fun u => u.created_at)),
           dateCountsDesc ((db.listings.filter (fun l => withinDays db.now d l.created_at)).map
              (fun l => l.created_at))⟩
        db := db, queries := [.adminCheck, .select, .select] }

/-- One row of the activity listing: the audit columns joined with the
acting admin's identity. -/
structure ActivityRow where
  action : String
  details : String
  ip_address : String
  created_at : Nat
  username : Option String
  email : Option String
  deriving Repr, DecidableEq

/-- `getAdminActivity`: inline admin check, then the audit log inner-joined
with `users`, newest first, `LIMIT $1` (default 50); a `NaN` or negative
limit parameter makes the store reject the query, surfaced as 500. -/
def getAdminActivity (db : DB) (callerId : Nat) (limit : Option String) :
    HandlerOut (List ActivityRow) :=
  if !(isAdminCaller db callerId) then
    { status := 403, success := false, data := none, db := db
      queries := [.adminCheck] }
  else
    match (match limit with | none => some (50 : Int) | some s => jsParseInt s) with
    | none =>
      { status := 500, success := false, data := none, db := db
        queries := [.adminCheck, .select] }
    | some lim =>
      if lim < 0 then
        { status := 500, success := false, data := none, db := db
          queries := [.adminCheck, .select] }
      else
        let joined := db.admin_activity_log.filterMap (fun a =>
          (db.users.find? (fun u => u.id == a.admin_id)).map
            (fun u => ActivityRow.mk a.action a.details a.ip_address
              a.created_at u.username u.email))
        { status := 200, success := true
          data := some ((joined.insertionSort
              (fun a b => b.created_at ≤ a.created_at)).take lim.toNat)
          db := db, queries := [.adminCheck, .select] }

/-- `GET /users` of the router: every user, newest first. -/
def listAllUsers (db : DB) : List UserRow :=
  db.users.insertionSort (fun a b => b.created_at ≤ a.created_at)

/-- `GET /users/:id` of the router: `rows[0]` of the id lookup, 404 when
the row set is empty. -/
def getUserById (db : DB) (id : Nat) : HandlerOut UserRow :=
  match db.users.find? (fun u => u.id == id) with
  | some u =>
    { status := 200, success := true, data := some u, db := db
      queries := [.select] }
  | none =>
    { status := 404, success := false, data := none, db := db
      queries := [.select] }

/-- The `"<h>h <m>m"` uptime rendering of `GET /system`. -/
def uptimeString (uptimeSecs : Nat) : String :=
  toString (uptimeSecs / 3600) ++ "h " ++ toString (uptimeSecs % 3600 / 60) ++ "m"

/-- Payload of `GET /system`. -/
structure SystemHealth where
  connected : Bool
  users : Nat
  listings : Nat
  marketplace_accounts : Nat
  uptime : String
  deriving Repr, DecidableEq

/-- `GET /system`: connection probe, the three row counts (listings counted
non-deleted), and the process uptime string. -/
def systemHealth (db : DB) (uptimeSecs : Nat) : SystemHealth :=
  { connected := true, users := db.users.length
    listings := (nonDeletedListings db).length
    marketplace_accounts := db.marketplace_accounts.length
    uptime := uptimeString uptimeSecs }

/-- Payload of `GET /analytics`. -/
structure AnalyticsData where
  userGrowth : List DateCount
  listingGrowth : List DateCount
  deriving Repr, DecidableEq

/-- `created_at >= NOW() - INTERVAL '7 days'` (inclusive, fixed window). -/
def withinSevenDays (now ts : Nat) : Bool :=
  (now : Int) - 7 * 86400 ≤ (ts : Int)

/-- `GET /analytics`: the two 7-day growth aggregations, dates ascending;
the listing side also filters `deleted_at IS NULL`. -/
def analyticsData (db : DB) : AnalyticsData :=
  { userGrowth := dateCountsAsc ((db.users.filter
      (fun u => withinSevenDays db.now u.created_at)).map (fun u => u.created_at))
    listingGrowth := dateCountsAsc (((nonDeletedListings db).filter
      (fun l => withinSevenDays db.now l.created_at)).map (fun l => l.created_at)) }

/-- First statement of `DELETE /users/:id`:
`UPDATE listings SET deleted_at = NOW() WHERE user_id = $1`. -/
def softDeleteUserListings (db : DB) (uid : Nat) : DB :=
  { db with listings := db.listings.map (fun l =>
      if l.user_id == uid then { l with deleted_at := some db.now } else l) }

/-- `DELETE /users/:id`: soft-delete the user's listings, then
`DELETE FROM users WHERE id = $1 RETURNING id`; 404 when the delete
returned no row (the listings update has already run and is not rolled
back — there is no transaction). -/
def deleteUser (db : DB) (uid : Nat) : HandlerOut Unit :=
  let db1 := softDeleteUserListings db uid
  let deleted := db1.users.filter (fun u => u.id == uid)
  if deleted.isEmpty then
    { status := 404, success := false, data := none, db := db1
      queries := [.updateWrite, .deleteWrite] }
  else
    { status := 200, success := true, data := some ()
      db := { db1 with users := db1.users.filter (fun u => u.id != uid) }
      queries := [.updateWrite, .deleteWrite] }

/-! ## Endpoint dispatch and the authorization gate -/

/-- Wrap a read-only payload in a 200 envelope issuing `n` selects. -/
def readOnly {α : Type} (db : DB) (n : Nat) (a : α) : HandlerOut α :=
  { status := 200, success := true, data := some a, db := db
    queries := List.replicate n QueryTag.select }

/-- Modelled from the spec: the router's `isAdmin` middleware
(`src/middleware/isAdmin`, not among the provided files).  Per §2/§6 of the
spec every admin endpoint sits behind an authorization gate that resolves
the caller's user row and returns the 403 `Forbidden` envelope, without
running the handler body, unless the admin flag is true. -/
def gated {α : Type} (db : DB) (callerId : Nat) (h : DB → HandlerOut α) :
    HandlerOut α :=
  if isAdminCaller db callerId then
    let o := h db
    { o with queries := QueryTag.adminCheck :: o.queries }
  else
    { status := 403, success := false, data := none, db := db
      queries := [QueryTag.adminCheck] }

/-- One request to some admin endpoint, with its inputs. -/
inductive AdminRequest where
  | metrics (ip : String) (auditFails : Bool)
  | users (page limit : Option String) (search tier : String)
  | stats (days : Option String)
  | activity (limit : Option String)
  | dashboard
  | listUsers
  | getUser (id : Nat)
  | putUser (id : Nat) (body : UserUpdateBody)
  | delUser (id : Nat)
  | listListings
  | delListing (id : Nat)
  | system (uptimeSecs : Nat)
  | analytics
  deriving Repr

/-- Route a request to its handler.  The controller handlers carry their
inline admin check; the router handlers sit behind the `isAdmin` gate. -/
def dispatch (db : DB) (callerId : Nat) : AdminRequest → HandlerOut Unit
  | .metrics ip af => (getDashboardMetrics db callerId ip af).erase
  | .users p l s t => (getUsers db callerId p l s t).erase
  | .stats d => (getSystemStats db callerId d).erase
  | .activity l => (getAdminActivity db callerId l).erase
  | .dashboard => (gated db callerId (fun db => readOnly db 4 (dashboardStats db))).erase
  | .listUsers => (gated db callerId (fun db => readOnly db 1 (listAllUsers db))).erase
  | .getUser id => (gated db callerId (fun db => getUserById db id)).erase
  | .putUser id body => (gated db callerId (fun db => updateUser db id body)).erase
  | .delUser id => (gated db callerId (fun db => deleteUser db id)).erase
  | .listListings => (gated db callerId (fun db => readOnly db 1 (getListingsRows db))).erase
  | .delListing id => (gated db callerId (fun db => deleteListing db id)).erase
  | .system up => (gated db callerId (fun db => readOnly db 2 (systemHealth db up))).erase
  | .analytics => (gated db callerId (fun db => readOnly db 2 (analyticsData db))).erase

/-! ## Concrete fixtures for evaluations -/

/-- A user row fixture. -/
def mkUser (id : Nat) (tier : String) (adm : Bool) (created : Nat) : UserRow :=
  { id := id, username := some ("user" ++ toString id)
    email := some ("user" ++ toString id ++ "@example.com")
    subscription_tier := some tier, points := some 0, current_level := 1
    is_admin := some adm, created_at := created, updated_at := created }

/-- A listing row fixture. -/
def mkListing (id uid : Nat) (status : String) (del : Option Nat) (created : Nat) :
    ListingRow :=
  { id := id, user_id := uid, title := "t", description := "d", status := status
    price := 100, category := "c", marketplace_listings := "", deleted_at := del
    created_at := created }

/-- An empty store. -/
def emptyDB : DB :=
  { users := [], listings := [], marketplace_accounts := [], ebay_listings := []
    admin_activity_log := [], now := 0 }

/-- Store with a single admin (id 1): exercises the audit-failure path. -/
def dbC1 : DB :=
  { users := [mkUser 1 "free" true 100], listings := [], marketplace_accounts := []
    ebay_listings := [], admin_activity_log := [], now := 1000 }

/-- Store with an admin (id 9) and a user (id 1) owning two listings and
three active marketplace accounts: exercises the users-listing join. -/
def dbC3 : DB :=
  { users := [mkUser 9 "free" true 100, mkUser 1 "free" false 200]
    listings := [mkListing 11 1 "active" none 10, mkListing 12 1 "draft" none 20]
    marketplace_accounts := [⟨21, 1, true⟩, ⟨22, 1, true⟩, ⟨23, 1, true⟩]
    ebay_listings := [], admin_activity_log := [], now := 1000 }

/-- Store whose only listing (id 1) is already soft-deleted. -/
def dbC4 : DB :=
  { users := [], listings := [mkListing 1 7 "active" (some 5) 10]
    marketplace_accounts := [], ebay_listings := [], admin_activity_log := []
    now := 42 }

/-- Store with one user (id 1) carrying a username, email, tier and points. -/
def dbC5 : DB :=
  { users := [mkUser 1 "free" false 100], listings := [], marketplace_accounts := []
    ebay_listings := [], admin_activity_log := [], now := 50 }

/-- Update body providing only `points`. -/
def bodyC5 : UserUpdateBody := ⟨none, none, none, some 50, none⟩

/-- Store whose only (non-deleted) listing has the status `sold`, which
lies outside the dashboard's active/draft/published enumeration. -/
def dbC6 : DB :=
  { users := [], listings := [mkListing 1 7 "sold" none 10]
    marketplace_accounts := [], ebay_listings := [], admin_activity_log := []
    now := 42 }

/-- Store with a user (id 3) owning two listings: exercises user deletion. -/
def dbC8 : DB :=
  { users := [mkUser 9 "free" true 100, mkUser 3 "free" false 200]
    listings := [mkListing 31 3 "active" none 10, mkListing 32 3 "draft" none 20,
                 mkListing 40 9 "active" none 30]
    marketplace_accounts := [], ebay_listings := [], admin_activity_log := []
    now := 77 }

/-- Store with ten premium and five premium-plus users. -/
def dbC9 : DB :=
  { users := (List.range 10).map (fun i => mkUser (i + 1) "premium" false 10) ++
      (List.range 5).map (fun i => mkUser (i + 11) "premium_plus" false 10)
    listings := [], marketplace_accounts := [], ebay_listings := []
    admin_activity_log := [], now := 1000 }

/-! ## Supporting lemmas -/

/-- A lone `%` matches every subject. -/
theorem likeMatch_percent_nil (cs : List Char) : likeMatch ['%'] cs = true := by
  induction cs with
  | nil => rfl
  | cons c tl ih => simp [likeMatch, List.tails]

/-- Prepending `%` to a matching pattern keeps it matching. -/
theorem likeMatch_percent_cons (ps cs : List Char) (h : likeMatch ps cs = true) :
    likeMatch ('%' :: ps) cs = true := by
  cases cs with
  | nil => simp [likeMatch, List.tails, h]
  | cons c tl => simp [likeMatch, List.tails, h]

/-- The pattern `%%%` matches every string. -/
theorem ilike_triple_percent (s : String) : ilike "%%%" s = true := by
  show likeMatch ['%', '%', '%'] s.toList = true
  exact likeMatch_percent_cons _ _ (likeMatch_percent_cons _ _ (likeMatch_percent_nil _))

/-- `dedup` preserves membership. -/
theorem mem_dedup {α : Type} [BEq α] [LawfulBEq α] (a : α) (l : List α) :
    a ∈ dedup l ↔ a ∈ l := by
  induction l with
  | nil => simp [dedup]
  | cons b tl ih =>
    by_cases hab : a = b
    · subst hab
      simp [dedup]
    · simp [dedup, List.mem_filter, ih, hab]

/-- Reading a bucket off the `GROUP BY status` rows equals the filtered
count for that status (0 when the status never occurs). -/
theorem groupCount_statusGroups (rows : List ListingRow) (s : String) :
    groupCount (statusGroups rows) s = rows.countP (fun l => l.status == s) := by
  unfold groupCount statusGroups
  cases hF : ((dedup (rows.map (fun l => l.status))).map
      (fun t => (t, rows.countP (fun l => l.status == t)))).find?
      (fun g => g.1 == s) with
  | none =>
    have hnone := List.find?_eq_none.mp hF
    symm
    rw [List.countP_eq_zero]
    intro l hl hstat
    have hmem : s ∈ dedup (rows.map (fun l => l.status)) := by
      rw [mem_dedup]
      exact List.mem_map.mpr ⟨l, hl, by simpa using hstat⟩
    have := hnone (s, rows.countP (fun l => l.status == s))
      (List.mem_map.mpr ⟨s, hmem, rfl⟩)
    simp at this
  | some g =>
    have hg := List.mem_of_find?_eq_some hF
    have hp := List.find?_some hF
    obtain ⟨t, ht, rfl⟩ := List.mem_map.mp hg
    have : t = s := by simpa using hp
    subst this
    rfl

/-- Counts of three pairwise-distinct statuses add up to the count of
their union. -/
theorem countP_status_sum3 (rows : List ListingRow) (a b c : String)
    (hab : a ≠ b) (hac : a ≠ c) (hbc : b ≠ c) :
    rows.countP (fun l => l.status == a) + rows.countP (fun l => l.status == b) +
        rows.countP (fun l => l.status == c)
      = rows.countP (fun l => l.status == a || l.status == b || l.status == c) := by
  induction rows with
  | nil => rfl
  | cons x tl ih =>
    simp only [List.countP_cons]
    by_cases h1 : x.status = a <;> by_cases h2 : x.status = b <;>
      by_cases h3 : x.status = c <;> simp_all <;> omega

/-- Counts of four pairwise-distinct statuses add up to the count of
their union. -/
theorem countP_status_sum4 (rows : List ListingRow) (a b c d : String)
    (hab : a ≠ b) (hac : a ≠ c) (had : a ≠ d) (hbc : b ≠ c) (hbd : b ≠ d)
    (hcd : c ≠ d) :
    rows.countP (fun l => l.status == a) + rows.countP (fun l => l.status == b) +
        rows.countP (fun l => l.status == c) + rows.countP (fun l => l.status == d)
      = rows.countP (fun l => l.status == a || l.status == b || l.status == c ||
          l.status == d) := by
  induction rows with
  | nil => rfl
  | cons x tl ih =>
    simp only [List.countP_cons]
    by_cases h1 : x.status = a <;> by_cases h2 : x.status = b <;>
      by_cases h3 : x.status = c <;> by_cases h4 : x.status = d <;>
      simp_all <;> omega

/-! ## Claims -/

/-- C1 (counterexample): in a store whose caller id 1 is an admin, a failing
audit write makes `getDashboardMetrics` answer the 500 error envelope with
no metrics payload — the claim that an audit-write failure still yields the
success response is false on this input. -/
theorem audit_failure_turns_metrics_into_error :
    (getDashboardMetrics dbC1 1 "127.0.0.1" true).status = 500 ∧
      (getDashboardMetrics dbC1 1 "127.0.0.1" true).success = false ∧
      (getDashboardMetrics dbC1 1 "127.0.0.1" true).data = none ∧
      isAdminCaller dbC1 1 = true := by
  decide

/-- C1 (amended): the audit insert is awaited inside the handler's single
`try`, so whenever the caller is an admin and the audit write fails, the
operation returns the 500 error envelope with no metrics payload and the
store unchanged, instead of the computed metrics. -/
theorem metrics_error_on_audit_failure (db : DB) (callerId : Nat) (ip : String)
    (h : isAdminCaller db callerId = true) :
    (getDashboardMetrics db callerId ip true).status = 500 ∧
      (getDashboardMetrics db callerId ip true).success = false ∧
      (getDashboardMetrics db callerId ip true).data = none ∧
      (getDashboardMetrics db callerId ip true).db = db := by
  simp [getDashboardMetrics, h]

/-- C1 (witness): the amended statement at the concrete admin store. -/
theorem metrics_error_on_audit_failure_witness :
    isAdminCaller dbC1 1 = true ∧
      ((getDashboardMetrics dbC1 1 "10.0.0.1" true).status = 500 ∧
        (getDashboardMetrics dbC1 1 "10.0.0.1" true).success = false ∧
        (getDashboardMetrics dbC1 1 "10.0.0.1" true).data = none ∧
        (getDashboardMetrics dbC1 1 "10.0.0.1" true).db = dbC1) :=
  ⟨by decide, metrics_error_on_audit_failure dbC1 1 "10.0.0.1" (by decide)⟩

/-- C2: for every caller whose user row is absent or whose admin flag is not
true, every admin endpoint returns the 403 `success = false` envelope, the
store is unchanged, and the only query issued is the admin check itself —
no aggregate read, no audit insert, no write. -/
theorem forbidden_non_admin_no_mutation (db : DB) (callerId : Nat)
    (r : AdminRequest) (h : isAdminCaller db callerId = false) :
    dispatch db callerId r =
      { status := 403, success := false, data := none, db := db
        queries := [QueryTag.adminCheck] } := by
  cases r <;>
    simp [dispatch, getDashboardMetrics, getUsers, getSystemStats, getAdminActivity,
      gated, HandlerOut.erase, h]

/-- C2 (witness): the metrics endpoint on an empty store and unknown caller. -/
theorem forbidden_non_admin_no_mutation_witness :
    isAdminCaller emptyDB 1 = false ∧
      dispatch emptyDB 1 (AdminRequest.metrics "10.0.0.1" false) =
        { status := 403, success := false, data := none, db := emptyDB
          queries := [QueryTag.adminCheck] } :=
  ⟨by decide, forbidden_non_admin_no_mutation emptyDB 1 _ (by decide)⟩

/-- C3: in a store where user 1 owns 2 listings and 3 active marketplace
accounts, the users listing reports `listing_count = 6` and
`connected_accounts = 6` for that user — the double left join fans out to
2 × 3 rows and both `COUNT`s run over that product, so the claimed per-user
counts (2 and 3) are not what the endpoint returns.  (Users with zero
listings and accounts do still appear with zero counts.) -/
theorem users_listing_fanout_at_input :
    ((getUsers dbC3 9 none none "" "").data.map
      (fun p => p.users.map (fun r => (r.id, r.listing_count, r.connected_accounts))))
      = some [(1, 6, 6), (9, 0, 0)] ∧
      (listingsOf dbC3 1).length = 2 ∧ (activeAccountsOf dbC3 1).length = 3 := by
  decide

/-- C4 (counterexample): the delete-listing `WHERE` clause matches on id
alone, so on a store whose only listing with id 1 is already soft-deleted
the endpoint answers 200 success even though no matching *undeleted*
listing exists — the claimed "NotFound iff no matching undeleted listing"
is false on this input. -/
theorem delete_listing_success_on_already_deleted :
    (deleteListing dbC4 1).status = 200 ∧ (deleteListing dbC4 1).success = true ∧
      dbC4.listings.countP (fun l => l.id == 1 && l.deleted_at == none) = 0 := by
  decide

/-- C4 (amended): the delete-listing operation only sets the deletion
timestamp and never removes the row; it returns NotFound iff no listing row
with that id exists at all (deleted or not) — re-deleting an already
soft-deleted listing succeeds and refreshes the timestamp — and subsequent
listing queries exclude the soft-deleted row. -/
theorem delete_listing_soft_only (db : DB) (id : Nat) :
    ((deleteListing db id).status = 404 ↔
        db.listings.filter (fun l => l.id == id) = []) ∧
      ((deleteListing db id).status = 404 → (deleteListing db id).db = db) ∧
      (deleteListing db id).db.listings.length = db.listings.length ∧
      (∀ l ∈ (deleteListing db id).db.listings, l.id = id →
        l.deleted_at = some db.now) ∧
      (∀ l ∈ getListingsRows (deleteListing db id).db, l.id ≠ id) := by
  by_cases hM : db.listings.filter (fun l => l.id == id) = []
  · have hall := List.filter_eq_nil_iff.mp hM
    refine ⟨by simp [deleteListing, hM], fun _ => by simp [deleteListing, hM],
      by simp [deleteListing, hM], ?_, ?_⟩
    · intro l hl hid
      simp [deleteListing, hM] at hl
      have := hall l hl
      simp [hid] at this
    · intro l hl
      simp only [deleteListing, hM] at hl
      simp only [List.isEmpty_nil, if_true] at hl
      have hmem := (List.perm_insertionSort _ _).mem_iff.mp hl
      simp only [nonDeletedListings, List.mem_filter] at hmem
      intro hid
      have := hall l hmem.1
      simp [hid] at this
  · have hE : (db.listings.filter (fun l => l.id == id)).isEmpty = false := by
      simpa [List.isEmpty_iff] using hM
    have hmarked : ∀ l ∈ (deleteListing db id).db.listings,
        l.id = id → l.deleted_at = some db.now := by
      intro l hl hid
      simp only [deleteListing, hE, Bool.false_eq_true, if_false] at hl
      obtain ⟨l0, hl0, rfl⟩ := List.mem_map.mp hl
      cases hc : l0.id == id with
      | true => simp [hc]
      | false =>
        simp only [hc, if_false] at hid ⊢
        simp at hc
        exact absurd hid hc
    refine ⟨by simp [deleteListing, hE, hM], by simp [deleteListing, hE],
      by simp [deleteListing, hE], hmarked, ?_⟩
    intro l hl
    have hmem := (List.perm_insertionSort _ _).mem_iff.mp hl
    simp only [nonDeletedListings, List.mem_filter] at hmem
    intro hid
    have := hmarked l hmem.1 hid
    rw [this] at hmem
    simp at hmem

/-- C4 (witness): the amended statement at the soft-deleted-listing store. -/
theorem delete_listing_soft_only_witness :
    ((deleteListing dbC4 1).status = 404 ↔
        dbC4.listings.filter (fun l => l.id == 1) = []) ∧
      ((deleteListing dbC4 1).status = 404 → (deleteListing dbC4 1).db = dbC4) ∧
      (deleteListing dbC4 1).db.listings.length = dbC4.listings.length ∧
      (∀ l ∈ (deleteListing dbC4 1).db.listings, l.id = 1 →
        l.deleted_at = some dbC4.now) ∧
      (∀ l ∈ getListingsRows (deleteListing dbC4 1).db, l.id ≠ 1) :=
  delete_listing_soft_only dbC4 1

/-- C5 (counterexample): updating user 1 with a body that provides only
`points` overwrites the stored username with SQL `NULL` (the driver binds
the omitted `undefined` field as null), so a field not provided is *not*
left unchanged. -/
theorem update_user_nulls_omitted_fields :
    ((updateUser dbC5 1 bodyC5).db.users.map
      (fun u => (u.id, u.username, u.points))) = [(1, none, some 50)] ∧
      dbC5.users.map (fun u => u.username) = [some "user1"] ∧
      (updateUser dbC5 1 bodyC5).status = 200 := by
  decide

/-- C5 (amended): the update writes all five columns unconditionally in one
statement — provided fields get their values, omitted fields become SQL
`NULL` — touches `updated_at`, returns the updated projection, leaves
non-target rows in place, and returns NotFound with the store unchanged
when no row matches the id. -/
theorem update_user_full_overwrite (db : DB) (id : Nat) (body : UserUpdateBody) :
    ((updateUser db id body).status = 404 ↔
        db.users.filter (fun u => u.id == id) = []) ∧
      ((updateUser db id body).status = 404 → (updateUser db id body).db = db) ∧
      (∀ u ∈ (updateUser db id body).db.users, u.id = id →
        u.username = body.username ∧ u.email = body.email ∧
          u.subscription_tier = body.subscription_tier ∧ u.points = body.points ∧
          u.is_admin = body.is_admin ∧ u.updated_at = db.now) ∧
      (∀ u ∈ db.users, u.id ≠ id → u ∈ (updateUser db id body).db.users) ∧
      ((updateUser db id body).status = 200 →
        (updateUser db id body).data.map (fun p =>
          (p.username, p.email, p.subscription_tier, p.points, p.is_admin)) =
          some (body.username, body.email, body.subscription_tier, body.points,
            body.is_admin)) := by
  cases hM : db.users.filter (fun u => u.id == id) with
  | nil =>
    have hall := List.filter_eq_nil_iff.mp hM
    refine ⟨by simp [updateUser, hM], fun _ => by simp [updateUser, hM], ?_, ?_, ?_⟩
    · intro u hu hid
      simp [updateUser, hM] at hu
      have := hall u hu
      simp [hid] at this
    · intro u hu _
      simp [updateUser, hM]
      exact hu
    · intro h200
      simp [updateUser, hM] at h200
  | cons u0 tl =>
    refine ⟨by simp [updateUser, hM], by simp [updateUser, hM], ?_, ?_, ?_⟩
    · intro u hu hid
      simp only [updateUser, hM] at hu
      obtain ⟨v, hv, rfl⟩ := List.mem_map.mp hu
      cases hc : v.id == id with
      | true => simp [hc, applyUserUpdate]
      | false =>
        simp only [hc, if_false] at hid ⊢
        simp at hc
        exact absurd hid hc
    · intro u hu hne
      simp only [updateUser, hM]
      refine List.mem_map.mpr ⟨u, hu, ?_⟩
      simp [hne]
    · intro _
      simp [updateUser, hM, applyUserUpdate]

/-- C5 (witness): the amended statement at the single-user store with the
points-only body. -/
theorem update_user_full_overwrite_witness :
    ((updateUser dbC5 1 bodyC5).status = 404 ↔
        dbC5.users.filter (fun u => u.id == 1) = []) ∧
      ((updateUser dbC5 1 bodyC5).status = 404 → (updateUser dbC5 1 bodyC5).db = dbC5) ∧
      (∀ u ∈ (updateUser dbC5 1 bodyC5).db.users, u.id = 1 →
        u.username = bodyC5.username ∧ u.email = bodyC5.email ∧
          u.subscription_tier = bodyC5.subscription_tier ∧ u.points = bodyC5.points ∧
          u.is_admin = bodyC5.is_admin ∧ u.updated_at = dbC5.now) ∧
      (∀ u ∈ dbC5.users, u.id ≠ 1 → u ∈ (updateUser dbC5 1 bodyC5).db.users) ∧
      ((updateUser dbC5 1 bodyC5).status = 200 →
        (updateUser dbC5 1 bodyC5).data.map (fun p =>
          (p.username, p.email, p.subscription_tier, p.points, p.is_admin)) =
          some (bodyC5.username, bodyC5.email, bodyC5.subscription_tier,
            bodyC5.points, bodyC5.is_admin)) :=
  update_user_full_overwrite dbC5 1 bodyC5

/-- C6 (counterexample): on a store whose only non-deleted listing has
status `sold`, the dashboard's active/draft/published buckets sum to 0
while the total non-deleted listing count is 1 — the claimed "bucket counts
sum to the total number of non-deleted listings" is false on this input. -/
theorem status_buckets_miss_unknown_status :
    (dashboardStats dbC6).activeListings + (dashboardStats dbC6).draftListings +
        (dashboardStats dbC6).publishedListings = 0 ∧
      (dashboardStats dbC6).totalListings = 1 := by
  decide

/-- C6 (amended): each report variant always carries its fixed bucket set
with counts ≥ 0 (the buckets are structure fields, 0 when empty), and the
bucket counts sum to the number of listings whose status lies in that fixed
set — non-deleted listings for the dashboard's active/draft/published
buckets, all listings for the metrics handler's draft/active/sold/archived
buckets; this equals the respective total only when no other status
occurs. -/
theorem status_buckets_sum_known_statuses (db : DB) :
    (dashboardStats db).activeListings + (dashboardStats db).draftListings +
        (dashboardStats db).publishedListings
      = (nonDeletedListings db).countP (fun l =>
          l.status == "active" || l.status == "draft" || l.status == "published") ∧
      (dashboardStats db).totalListings = (nonDeletedListings db).length ∧
      (listingsByStatusAll db).drafts + (listingsByStatusAll db).active +
          (listingsByStatusAll db).sold + (listingsByStatusAll db).archived
        = db.listings.countP (fun l =>
            l.status == "draft" || l.status == "active" || l.status == "sold" ||
              l.status == "archived") := by
  refine ⟨?_, rfl, ?_⟩
  · show groupCount (statusGroups (nonDeletedListings db)) "active" +
        groupCount (statusGroups (nonDeletedListings db)) "draft" +
        groupCount (statusGroups (nonDeletedListings db)) "published" = _
    rw [groupCount_statusGroups, groupCount_statusGroups, groupCount_statusGroups]
    exact countP_status_sum3 _ _ _ _ (by decide) (by decide) (by decide)
  · exact countP_status_sum4 _ _ _ _ _ (by decide) (by decide) (by decide)
      (by decide) (by decide) (by decide)

/-- C7 (counterexample): two different `days` values produce two different
SQL strings for the stats queries (with identical, empty parameter
vectors) — the `days` value is interpolated into the query text, so the
claimed "SQL text identical for any two values of the input" is false. -/
theorem days_value_changes_sql_text :
    (buildSignupsQuery "7").1 ≠ (buildSignupsQuery "8").1 ∧
      (buildSignupsQuery "7").2 = (buildSignupsQuery "8").2 ∧
      (buildListingsStatsQuery "7").1 ≠ (buildListingsStatsQuery "8").1 := by
  decide

/-- C7 (amended): in `getUsers` the search, tier, limit and offset values
are always bound as parameters — the assembled SQL text depends only on
*which* optional filters are present, never on their values — but the
`days` value of `getSystemStats` is spliced (after `parseInt` coercion)
into the SQL text itself. -/
theorem filter_values_bound_as_parameters (s1 s2 t1 t2 : String)
    (l1 o1 l2 o2 : Int) (hs : (s1 = "") ↔ (s2 = "")) (ht : (t1 = "") ↔ (t2 = "")) :
    (buildUsersQuery s1 t1 l1 o1).1 = (buildUsersQuery s2 t2 l2 o2).1 ∧
      (buildUsersCountQuery s1 t1).1 = (buildUsersCountQuery s2 t2).1 := by
  by_cases h1 : s1 = ""
  · have h2 := hs.mp h1
    by_cases h3 : t1 = ""
    · have h4 := ht.mp h3
      simp [buildUsersQuery, buildUsersCountQuery, h1, h2, h3, h4]
    · have h4 : ¬t2 = "" := fun hh => h3 (ht.mpr hh)
      simp [buildUsersQuery, buildUsersCountQuery, h1, h2, h3, h4]
  · have h2 : ¬s2 = "" := fun hh => h1 (hs.mpr hh)
    by_cases h3 : t1 = ""
    · have h4 := ht.mp h3
      simp [buildUsersQuery, buildUsersCountQuery, h1, h2, h3, h4]
    · have h4 : ¬t2 = "" := fun hh => h3 (ht.mpr hh)
      simp [buildUsersQuery, buildUsersCountQuery, h1, h2, h3, h4]

/-- C7 (witness): two distinct non-empty search and tier values yield the
same query texts. -/
theorem filter_values_bound_as_parameters_witness :
    ((("alice" : String) = "") ↔ (("bob" : String) = "")) ∧
      ((("free" : String) = "") ↔ (("premium" : String) = "")) ∧
      ((buildUsersQuery "alice" "free" 10 0).1 = (buildUsersQuery "bob" "premium" 50 100).1 ∧
        (buildUsersCountQuery "alice" "free").1 = (buildUsersCountQuery "bob" "premium").1) :=
  ⟨by decide, by decide,
    filter_values_bound_as_parameters "alice" "bob" "free" "premium" 10 0 50 100
      (by decide) (by decide)⟩

/-- C8: deleting a user first soft-deletes all the user's listings and only
then removes the user row: at the intermediate state the user rows are
untouched while every listing of the target already carries the deletion
timestamp, and the final state keeps exactly those listings with no user
row left for the id; when the user id does not exist the endpoint answers
404. -/
theorem delete_user_soft_deletes_listings_first (db : DB) (uid : Nat) :
    (db.users.filter (fun u => u.id == uid) ≠ [] →
      (deleteUser db uid).status = 200 ∧ (deleteUser db uid).success = true ∧
        (∀ u ∈ (deleteUser db uid).db.users, u.id ≠ uid) ∧
        (∀ l ∈ (deleteUser db uid).db.listings, l.user_id = uid →
          l.deleted_at = some db.now) ∧
        (softDeleteUserListings db uid).users = db.users ∧
        (deleteUser db uid).db.listings = (softDeleteUserListings db uid).listings) ∧
      (db.users.filter (fun u => u.id == uid) = [] →
        (deleteUser db uid).status = 404 ∧ (deleteUser db uid).success = false) := by
  have husers : (softDeleteUserListings db uid).users = db.users := rfl
  have hmark : ∀ l ∈ (softDeleteUserListings db uid).listings, l.user_id = uid →
      l.deleted_at = some db.now := by
    intro l hl hid
    simp only [softDeleteUserListings] at hl
    obtain ⟨l0, hl0, rfl⟩ := List.mem_map.mp hl
    cases hc : l0.user_id == uid with
    | true => simp [hc]
    | false =>
      simp only [hc, if_false] at hid ⊢
      simp at hc
      exact absurd hid hc
  constructor
  · intro hne
    have hE : (db.users.filter (fun u => u.id == uid)).isEmpty = false := by
      simpa [List.isEmpty_iff] using hne
    have hres : deleteUser db uid =
        { status := 200, success := true, data := some ()
          db := { softDeleteUserListings db uid with
                    users := (softDeleteUserListings db uid).users.filter
                      (fun u => u.id != uid) }
          queries := [QueryTag.updateWrite, QueryTag.deleteWrite] } := by
      simp [deleteUser, husers, hE]
    refine ⟨by rw [hres], by rw [hres], ?_, ?_, husers, by rw [hres]⟩
    · intro u hu
      rw [hres] at hu
      have := (List.mem_filter.mp hu).2
      simpa using this
    · intro l hl
      rw [hres] at hl
      exact hmark l hl
  · intro hnil
    have hE : (db.users.filter (fun u => u.id == uid)).isEmpty = true := by
      simp [List.isEmpty_iff, hnil]
    have hres : deleteUser db uid =
        { status := 404, success := false, data := none
          db := softDeleteUserListings db uid
          queries := [QueryTag.updateWrite, QueryTag.deleteWrite] } := by
      simp [deleteUser, husers, hE]
    exact ⟨by rw [hres], by rw [hres]⟩

/-- C8 (witness): deleting user 3, owner of two listings, in the concrete
store. -/
theorem delete_user_soft_deletes_listings_first_witness :
    dbC8.users.filter (fun u => u.id == 3) ≠ [] ∧
      ((deleteUser dbC8 3).status = 200 ∧ (deleteUser dbC8 3).success = true ∧
        (∀ u ∈ (deleteUser dbC8 3).db.users, u.id ≠ 3) ∧
        (∀ l ∈ (deleteUser dbC8 3).db.listings, l.user_id = 3 →
          l.deleted_at = some dbC8.now) ∧
        (softDeleteUserListings dbC8 3).users = dbC8.users ∧
        (deleteUser dbC8 3).db.listings = (softDeleteUserListings dbC8 3).listings) :=
  ⟨by decide, (delete_user_soft_deletes_listings_first dbC8 3).1 (by decide)⟩

/-- C9: the revenue estimate of the metrics report satisfies
`monthly = premiumCount * 4.99 + premiumPlusCount * 9.99` and
`annual = monthly * 12` in exact cents, rendered with exactly two fraction
digits; at `premiumCount = 10`, `premiumPlusCount = 5` the rendered values
are `"99.85"` and `"1198.20"`. -/
theorem revenue_estimate_formula (db : DB) :
    (computeMetrics db).revenue.monthlyRevenue
        = centsToFixed2 (premiumCount db * 499 + premiumPlusCount db * 999) ∧
      (computeMetrics db).revenue.annualRevenue
        = centsToFixed2 (monthlyRevenueCents db * 12) ∧
      (computeMetrics db).revenue.premiumUsers = premiumCount db ∧
      (computeMetrics db).revenue.premiumPlusUsers = premiumPlusCount db ∧
      premiumCount dbC9 = 10 ∧ premiumPlusCount dbC9 = 5 ∧
      (computeMetrics dbC9).revenue.monthlyRevenue = "99.85" ∧
      (computeMetrics dbC9).revenue.annualRevenue = "1198.20" :=
  ⟨rfl, rfl, rfl, rfl, by decide, by decide, by decide, by decide⟩

/-- C10: the search value is spliced into the `ILIKE` pattern between two
`%` with no metacharacter escaping, so a search value of `%` matches every
user that has a username or email, `_` acts as a single-character wildcard
rather than a literal (`a_c` matches the username `abc`), and on the
concrete store a `%` search returns every user. -/
theorem search_percent_matches_every_user (u : UserRow)
    (h : u.username ≠ none ∨ u.email ≠ none) :
    userMatchesSearch "%" u = true ∧
      userMatchesSearch "a_c" { u with username := some "abc" } = true ∧
      ((getUsers dbC3 9 none none "%" "").data.map
        (fun p => p.users.map (fun r => r.id))) = some [1, 9] := by
  refine ⟨?_, ?_, by decide⟩
  · unfold userMatchesSearch
    rcases h with h | h
    · cases hu : u.username with
      | none => exact absurd hu h
      | some s => simp [ilikeOpt, ilike_triple_percent]
    · cases he : u.email with
      | none => exact absurd he h
      | some s => simp [ilikeOpt, ilike_triple_percent]
  · unfold userMatchesSearch
    have hx : ilikeOpt "%a_c%" (some "abc") = true := by decide
    simp [hx]

/-- C10 (witness): the statement at a concrete user row with a username
and email. -/
theorem search_percent_matches_every_user_witness :
    ((mkUser 2 "free" false 0).username ≠ none ∨
        (mkUser 2 "free" false 0).email ≠ none) ∧
      (userMatchesSearch "%" (mkUser 2 "free" false 0) = true ∧
        userMatchesSearch "a_c" { mkUser 2 "free" false 0 with username := some "abc" } = true ∧
        ((getUsers dbC3 9 none none "%" "").data.map
          (fun p => p.users.map (fun r => r.id))) = some [1, 9]) :=
  ⟨by decide, search_percent_matches_every_user (mkUser 2 "free" false 0) (by decide)⟩

end QuickSell
